import Mathlib

/-! Shallow embedding of the result-resolution core of `src/api.py`: the
`/api/search-result` handler (`search_result`) with its record
normalization, the CGPA/GPA fetch orchestration and the web-API fallback.
The registry helpers of the missing `multi_supabase` module are modelled
from the spec where noted. -/

/-- Dynamic (Python/JSON-like) values handled by the server: null, booleans,
integers, strings and lists. -/
inductive PyValue : Type
  | none : PyValue
  | bool : Bool → PyValue
  | int : Int → PyValue
  | str : String → PyValue
  | list : List PyValue → PyValue

/-- A Python dict with string keys, as an association list (first binding of
a key wins, as a dict has unique keys). -/
abbrev PyDict : Type := List (String × PyValue)

/-- Raw lookup: `some v` when the key is present (even when the stored value
is Python `None`), `Option.none` when the key is absent. -/
def dget (d : PyDict) (k : String) : Option PyValue :=
  (d.find? (fun kv => kv.1 == k)).map (fun kv => kv.2)

/-- Python `d.get(k)`: the stored value, or Python `None` when the key is
absent. -/
def pyGet (d : PyDict) (k : String) : PyValue :=
  (dget d k).getD PyValue.none

/-- Python `d.get(k, dflt)`: the stored value when the key is present (even
when that stored value is `None`), else the default. -/
def pyGetD (d : PyDict) (k : String) (dflt : PyValue) : PyValue :=
  (dget d k).getD dflt

/-- Python truthiness of a value. -/
def pyTruthy : PyValue → Bool
  | .none => false
  | .bool b => b
  | .int n => n != 0
  | .str s => s != ""
  | .list xs => !xs.isEmpty

/-- Whether a value is Python `None` (the `is None` test). -/
def isNone : PyValue → Bool
  | .none => true
  | _ => false

/-- Python built-in `str` on the values the handler converts with it:
`api.py` applies it only to scalar column values (gpa, cgpa, semester), so
list rendering is abbreviated here; the source never reaches that branch. -/
def pyStr : PyValue → String
  | .none => "None"
  | .bool b => if b then "True" else "False"
  | .int n => toString n
  | .str s => s
  | .list _ => "[...]"

/-- Python `s.startswith(pre)`, by character sequence. -/
def strStartsWith (s pre : String) : Bool :=
  pre.data.isPrefixOf s.data

/-- Decoding of the `ref_subjects` column (api.py lines 249-258): a string
is JSON-decoded via `json.loads`, and on a decode failure the bare string
is wrapped as a one-element list (an empty string giving the empty list);
`None` becomes the empty list; anything else is kept unchanged. `jloads`
stands for Python `json.loads`, returning `Option.none` where the library
would raise. -/
def decodeRefSubjects (jloads : String → Option PyValue) (g : PyDict) : PyValue :=
  match pyGetD g "ref_subjects" (PyValue.list []) with
  | .str s =>
    match jloads s with
    | Option.some v => v
    | Option.none => if s == "" then PyValue.list [] else PyValue.list [PyValue.str s]
  | .none => PyValue.list []
  | v => v

/-- The display form of a gpa column value (api.py lines 264 and 268):
`str(gpa_record.get('gpa', '0.00')) if gpa_record.get('gpa') is not None
else 'ref'`. -/
def gpaDisplay (g : PyDict) : String :=
  if isNone (pyGet g "gpa") then "ref"
  else pyStr (pyGetD g "gpa" (PyValue.str "0.00"))

/-- One entry of the `resultData` array (api.py lines 260-269); `resultGpa`
is the nested `result.gpa` field and `gpa` the top-level copy. -/
structure SemOut : Type where
  publishedAt : PyValue
  semester : String
  resultGpa : String
  refSubjects : PyValue
  passed : Bool
  gpa : String

/-- Normalization of one GPA record into a `resultData` entry
(api.py lines 246-270). -/
def normalizeGpaRecord (jloads : String → Option PyValue) (g : PyDict) : SemOut where
  publishedAt := pyGetD g "created_at" (PyValue.str "2025-01-01T00:00:00Z")
  semester := pyStr (pyGetD g "semester" (PyValue.int 1))
  resultGpa := gpaDisplay g
  refSubjects := decodeRefSubjects jloads g
  passed := !pyTruthy (pyGetD g "is_reference" (PyValue.bool false))
  gpa := gpaDisplay g

/-- One entry of the `cgpaData` array (api.py lines 192-196). -/
structure CgpaOut : Type where
  semester : PyValue
  cgpa : String
  publishedAt : PyValue

/-- Normalization of one CGPA record (api.py lines 192-196). -/
def normalizeCgpaRecord (c : PyDict) : CgpaOut where
  semester := pyGetD c "semester" (PyValue.str "Final")
  cgpa := pyStr (pyGetD c "cgpa" (PyValue.str "0.00"))
  publishedAt := pyGetD c "created_at" (PyValue.str "2025-01-01T00:00:00Z")

/-- Observable actions of one request: registry project switches, per-source
store queries, and fallback web searches (with the arguments passed). -/
inductive Ev : Type
  | switch : String → Ev
  | qStudent : String → Ev
  | qCgpa : String → Ev
  | qGpa : String → Ev
  | qFallback : PyValue → PyValue → PyValue → Ev

/-- The request environment: the configured search order and the outcome of
every external call — the per-project student lookup (student and institute
rows), the per-project `cgpa_records` and `gpa_records` queries, the web-API
fallback search, and the JSON decoder. `Except.error` stands for a raised
exception. -/
structure SearchEnv : Type where
  searchOrder : List String
  findStudent : String → Except String (Option (PyDict × PyDict))
  fetchCgpa : String → Except String (List PyDict)
  fetchGpa : String → Except String (List PyDict)
  fallback : PyValue → PyValue → PyValue → Except String (Option PyDict)
  jloads : String → Option PyValue

/-- Modelled from the spec: the `ResolutionResult` of spec §3, the shape of
a hit returned by `search_student_across_projects` from the missing
`multi_supabase` module — the student and institute rows, a provenance
source tag, the project that answered, and (only for web-api-shaped hits)
pre-fetched GPA rows. -/
structure SearchHit : Type where
  studentData : PyDict
  instituteData : PyDict
  source : String
  projectName : String
  gpaRecords : List PyDict

/-- Modelled from the spec: `search_student_across_projects` of the missing
`multi_supabase` module, per spec §4.3 steps 2a-2d — for each name in the
search order, switch the active project to it and query the student there; a
source error (SourceUnavailable) or a miss advances to the next source; the
first hit wins, recorded with provenance tag "supabase" and its project
name. The `String` component is the registry's active project after the
call; the event list is the trace of switches and queries. -/
def searchAcrossGo (env : SearchEnv) : List String → String → Option SearchHit × String × List Ev
  | [], cur => (Option.none, cur, [])
  | p :: rest, _ =>
    match env.findStudent p with
    | .ok (Option.some sd) =>
      (Option.some { studentData := sd.1, instituteData := sd.2, source := "supabase",
                     projectName := p, gpaRecords := [] }, p, [Ev.switch p, Ev.qStudent p])
    | _ =>
      let r := searchAcrossGo env rest p
      (r.1, r.2.1, Ev.switch p :: Ev.qStudent p :: r.2.2)

/-- The CGPA scan of api.py lines 183-200: for each project in the search
order, switch to it and query `cgpa_records`; a per-project exception is
caught and the loop continues; the first non-empty result is transformed and
breaks the loop. -/
def qCgpaLoop (env : SearchEnv) : List String → String → List CgpaOut × String × List Ev
  | [], cur => ([], cur, [])
  | p :: rest, _ =>
    match env.fetchCgpa p with
    | .error _ =>
      let r := qCgpaLoop env rest p
      (r.1, r.2.1, Ev.switch p :: Ev.qCgpa p :: r.2.2)
    | .ok ds =>
      if ds.isEmpty then
        let r := qCgpaLoop env rest p
        (r.1, r.2.1, Ev.switch p :: Ev.qCgpa p :: r.2.2)
      else
        (ds.map normalizeCgpaRecord, p, [Ev.switch p, Ev.qCgpa p])

/-- The success document built at api.py lines 231-243. -/
structure SuccessDoc : Type where
  roll : PyValue
  regulation : PyValue
  exam : PyValue
  instCode : PyValue
  instName : PyValue
  instDistrict : PyValue
  resultData : List SemOut
  cgpaData : List CgpaOut

/-- Responses of the handler: the transformed success document, a web-API
result passed through as-is, the structured miss document (HTTP 404), or a
bare error document (an `error` field with a message) with its HTTP status
— the latter is what the validation branches and the outer exception
handler return. -/
inductive Resp : Type
  | success : SuccessDoc → Resp
  | webResult : PyDict → Resp
  | miss : PyValue → PyValue → PyValue → List String → List String → Resp
  | errorDoc : String → Nat → Resp

/-- The found-student branch of the handler (api.py lines 178-272): the CGPA
scan over all projects in order (store provenance only) followed by the
switch back to the found project (line 203), the best-effort GPA fetch from
the found project (lines 215-228, errors degrade to an empty list), then the
transform into the success document. -/
def foundBranch (env : SearchEnv) (h : SearchHit) (cur : String) : Resp × String × List Ev :=
  let cg : List CgpaOut × String × List Ev :=
    if h.source == "supabase" then
      let l := qCgpaLoop env env.searchOrder cur
      (l.1, h.projectName, l.2.2 ++ [Ev.switch h.projectName])
    else ([], cur, [])
  let gp : List PyDict × String × List Ev :=
    if strStartsWith h.source "web_api" then
      (h.gpaRecords, cg.2.1, [])
    else
      match env.fetchGpa h.projectName with
      | .ok ds => (ds, h.projectName, [Ev.switch h.projectName, Ev.qGpa h.projectName])
      | .error _ => ([], h.projectName, [Ev.switch h.projectName, Ev.qGpa h.projectName])
  let doc : SuccessDoc :=
    { roll := pyGet h.studentData "roll_number",
      regulation := pyGet h.studentData "regulation_year",
      exam := pyGet h.studentData "program_name",
      instCode := pyGet h.instituteData "institute_code",
      instName := pyGet h.instituteData "name",
      instDistrict := pyGet h.instituteData "district",
      resultData := gp.1.map (normalizeGpaRecord env.jloads),
      cgpaData := cg.1 }
  (Resp.success doc, gp.2.1, cg.2.2 ++ gp.2.2)

/-- The no-store-hit branch of the handler (api.py lines 273-289): one call
to the web-API fallback with the request fields; a raised exception
propagates to the outer handler (line 291) and becomes a bare error document
with status 500; a falsy or unsuccessful fallback result yields the
structured miss document with the configured search order. -/
def missBranch (env : SearchEnv) (rollNo regulation program : PyValue) (cur : String) :
    Resp × String × List Ev :=
  match env.fallback rollNo regulation program with
  | .error e =>
    (Resp.errorDoc e 500, cur, [Ev.qFallback rollNo regulation program])
  | .ok Option.none =>
    (Resp.miss rollNo regulation program env.searchOrder ["btebresulthub"], cur,
      [Ev.qFallback rollNo regulation program])
  | .ok (Option.some w) =>
    if pyTruthy (pyGet w "success") then
      (Resp.webResult w, cur, [Ev.qFallback rollNo regulation program])
    else
      (Resp.miss rollNo regulation program env.searchOrder ["btebresulthub"], cur,
        [Ev.qFallback rollNo regulation program])

/-- The `/api/search-result` handler (api.py lines 153-293). `data` is the
parsed request body (`Option.none` when no JSON was supplied), `cur` the
registry's active project at entry. Returns the response, the active
project after the call, and the trace of observable actions. -/
def searchResult (env : SearchEnv) (data : Option PyDict) (cur : String) :
    Resp × String × List Ev :=
  match data with
  | Option.none => (Resp.errorDoc "No JSON data provided" 400, cur, [])
  | Option.some d =>
    if d.isEmpty then (Resp.errorDoc "No JSON data provided" 400, cur, [])
    else if pyTruthy (pyGet d "rollNo") && pyTruthy (pyGet d "regulation")
        && pyTruthy (pyGet d "program") then
      let sr := searchAcrossGo env env.searchOrder cur
      match sr.1 with
      | Option.some h =>
        let fb := foundBranch env h sr.2.1
        (fb.1, fb.2.1, sr.2.2 ++ fb.2.2)
      | Option.none =>
        let mb := missBranch env (pyGet d "rollNo") (pyGet d "regulation")
          (pyGet d "program") sr.2.1
        (mb.1, mb.2.1, sr.2.2 ++ mb.2.2)
    else
      (Resp.errorDoc "Missing required fields: rollNo, regulation, program" 400, cur, [])

/-- Projection selecting student-lookup events. -/
def evStudentProj : Ev → Option String
  | .qStudent p => Option.some p
  | _ => Option.none

/-- Projection selecting CGPA-query events. -/
def evCgpaProj : Ev → Option String
  | .qCgpa p => Option.some p
  | _ => Option.none

/-- Projection selecting GPA-query events. -/
def evGpaProj : Ev → Option String
  | .qGpa p => Option.some p
  | _ => Option.none

/-- Projection selecting fallback-search events with their arguments. -/
def evFallbackProj : Ev → Option (PyValue × PyValue × PyValue)
  | .qFallback r g p => Option.some (r, g, p)
  | _ => Option.none

/-- The projects queried for the student record, in order, along a trace. -/
def studentQueries (evs : List Ev) : List String := evs.filterMap evStudentProj

/-- The projects queried for CGPA records, in order, along a trace. -/
def cgpaQueries (evs : List Ev) : List String := evs.filterMap evCgpaProj

/-- The projects queried for GPA records, in order, along a trace. -/
def gpaQueries (evs : List Ev) : List String := evs.filterMap evGpaProj

/-- The fallback invocations (with arguments), in order, along a trace. -/
def fallbackCalls (evs : List Ev) : List (PyValue × PyValue × PyValue) :=
  evs.filterMap evFallbackProj

/-- Whether a per-project student lookup produced a hit. -/
def isHitB (r : Except String (Option (PyDict × PyDict))) : Bool :=
  match r with
  | .ok (Option.some _) => true
  | _ => false

/-- The student-query sequence the claim describes: the configured order up
to and including the first source with a match, never beyond it. -/
def studentClaimOrder (env : SearchEnv) : List String → List String
  | [] => []
  | p :: rest =>
    p :: (if isHitB (env.findStudent p) then [] else studentClaimOrder env rest)

/-- The CGPA-query sequence the claim describes: the configured order up to
and including the first source whose CGPA query returns a non-empty list;
an erroring source is skipped and iteration continues. Independent of which
source held the student record. -/
def cgpaClaimOrder (env : SearchEnv) : List String → List String
  | [] => []
  | p :: rest =>
    match env.fetchCgpa p with
    | .error _ => p :: cgpaClaimOrder env rest
    | .ok ds => if ds.isEmpty then p :: cgpaClaimOrder env rest else [p]

/-- Whether a fallback outcome is a failure in the sense of the miss branch:
a falsy return or a result without a truthy `success` field (a raised
exception is not a return at all). -/
def fallbackFailsB : Except String (Option PyDict) → Bool
  | .ok Option.none => true
  | .ok (Option.some w) => !pyTruthy (pyGet w "success")
  | .error _ => false

/-- Whether a response is one of the two structured shapes of spec §6 (the
success document — including a passed-through web result, which carries the
fallback's own success shape — or the structured miss document). -/
def sec6Shape : Resp → Bool
  | .success _ => true
  | .webResult _ => true
  | .miss _ _ _ _ _ => true
  | .errorDoc _ _ => false

/-- The `publishedAt` fields of the `resultData` entries of a success
response (empty for other responses). -/
def respResultPublishedAts : Resp → List PyValue
  | .success doc => doc.resultData.map (fun s => s.publishedAt)
  | _ => []

/-- A student row used in concrete scenarios. -/
def sdA : PyDict :=
  [("roll_number", PyValue.str "123456"), ("regulation_year", PyValue.str "2016"),
   ("program_name", PyValue.str "Diploma")]

/-- An institute row used in concrete scenarios. -/
def instA : PyDict :=
  [("institute_code", PyValue.str "50123"), ("name", PyValue.str "Dhaka Polytechnic"),
   ("district", PyValue.str "Dhaka")]

/-- A request body used in concrete scenarios. -/
def reqA : PyDict :=
  [("rollNo", PyValue.str "123456"), ("regulation", PyValue.str "2016"),
   ("program", PyValue.str "Diploma")]

/-- A concrete model of `json.loads` for witnesses: decodes the one JSON
list used in the claims and fails on everything else. -/
def jlW : String → Option PyValue := fun s =>
  if s == "[\"Math\",\"Physics\"]" then
    Option.some (PyValue.list [PyValue.str "Math", PyValue.str "Physics"])
  else Option.none

/-- Scenario with the student record present only in the second project. -/
def envB : SearchEnv :=
  { searchOrder := ["primary", "secondary"],
    findStudent := fun p =>
      if p == "secondary" then Except.ok (Option.some (sdA, instA))
      else Except.ok Option.none,
    fetchCgpa := fun _ => Except.ok [],
    fetchGpa := fun _ => Except.ok [],
    fallback := fun _ _ _ => Except.ok Option.none,
    jloads := fun _ => Option.none }

/-- Scenario with a hit in the first project and an erroring GPA fetch. -/
def envGpaErr : SearchEnv :=
  { searchOrder := ["primary"],
    findStudent := fun _ => Except.ok (Option.some (sdA, instA)),
    fetchCgpa := fun _ => Except.ok [],
    fetchGpa := fun _ => Except.error "connection reset",
    fallback := fun _ _ _ => Except.ok Option.none,
    jloads := fun _ => Option.none }

/-- A CGPA row used in concrete scenarios. -/
def cgpaRowA : PyDict :=
  [("semester", PyValue.str "Final"), ("cgpa", PyValue.str "3.42"),
   ("created_at", PyValue.str "2024-06-01T00:00:00Z")]

/-- Scenario for the CGPA scan: hit in the first project, CGPA query erroring
there, succeeding non-empty in the second, with a third project behind it. -/
def envCgpaScan : SearchEnv :=
  { searchOrder := ["primary", "secondary", "tertiary"],
    findStudent := fun p =>
      if p == "primary" then Except.ok (Option.some (sdA, instA))
      else Except.ok Option.none,
    fetchCgpa := fun p =>
      if p == "primary" then Except.error "timeout"
      else Except.ok [cgpaRowA],
    fetchGpa := fun _ => Except.ok [],
    fallback := fun _ _ _ => Except.ok Option.none,
    jloads := fun _ => Option.none }

/-- Scenario with no project holding the student and a failing fallback. -/
def envAllMiss : SearchEnv :=
  { searchOrder := ["primary", "secondary"],
    findStudent := fun _ => Except.ok Option.none,
    fetchCgpa := fun _ => Except.ok [],
    fetchGpa := fun _ => Except.ok [],
    fallback := fun _ _ _ => Except.ok Option.none,
    jloads := fun _ => Option.none }

/-- Scenario with no project holding the student and the fallback raising a
transport error. -/
def envFallbackRaise : SearchEnv :=
  { searchOrder := ["primary", "secondary"],
    findStudent := fun _ => Except.ok Option.none,
    fetchCgpa := fun _ => Except.ok [],
    fetchGpa := fun _ => Except.ok [],
    fallback := fun _ _ _ => Except.error "connection timeout",
    jloads := fun _ => Option.none }

/-- A GPA row whose `created_at` key is present but null. -/
def gpaRowNullTs : PyDict :=
  [("created_at", PyValue.none), ("semester", PyValue.int 2),
   ("gpa", PyValue.str "3.50")]

/-- Scenario with a hit in the first project whose single GPA row has a null
`created_at`. -/
def envNullTs : SearchEnv :=
  { searchOrder := ["primary"],
    findStudent := fun _ => Except.ok (Option.some (sdA, instA)),
    fetchCgpa := fun _ => Except.ok [],
    fetchGpa := fun _ => Except.ok [gpaRowNullTs],
    fallback := fun _ _ _ => Except.ok Option.none,
    jloads := fun _ => Option.none }

/-- Claim C2: the `ref_subjects` decoder maps the non-JSON string
"Math,Physics" to the one-element list containing it, a JSON-encoded list
string to the decoded list, null to the empty list, and keeps a value that
is already a list unchanged; any decode failure degrades to wrapping the
raw (non-empty) string as a one-element list instead of failing. -/
theorem c2_ref_subjects_decoding (jl : String → Option PyValue) (g : PyDict)
    (hplain : jl "Math,Physics" = Option.none)
    (hjson : jl "[\"Math\",\"Physics\"]" =
      Option.some (PyValue.list [PyValue.str "Math", PyValue.str "Physics"])) :
    (dget g "ref_subjects" = Option.some (PyValue.str "Math,Physics") →
      decodeRefSubjects jl g = PyValue.list [PyValue.str "Math,Physics"])
    ∧ (dget g "ref_subjects" = Option.some (PyValue.str "[\"Math\",\"Physics\"]") →
      decodeRefSubjects jl g = PyValue.list [PyValue.str "Math", PyValue.str "Physics"])
    ∧ (dget g "ref_subjects" = Option.some PyValue.none →
      decodeRefSubjects jl g = PyValue.list [])
    ∧ (∀ xs, dget g "ref_subjects" = Option.some (PyValue.list xs) →
      decodeRefSubjects jl g = PyValue.list xs)
    ∧ (∀ s, jl s = Option.none → dget g "ref_subjects" = Option.some (PyValue.str s) →
      decodeRefSubjects jl g =
        (if s == "" then PyValue.list [] else PyValue.list [PyValue.str s])) := by
  refine ⟨fun h => ?_, fun h => ?_, fun h => ?_, fun xs h => ?_, fun s hs h => ?_⟩
  · simp [decodeRefSubjects, pyGetD, h, hplain]
  · simp [decodeRefSubjects, pyGetD, h, hjson]
  · simp [decodeRefSubjects, pyGetD, h]
  · simp [decodeRefSubjects, pyGetD, h]
  · simp [decodeRefSubjects, pyGetD, h, hs]

/-- Claim C2 witness: concrete evaluation of the decoder. -/
theorem c2_witness :
    decodeRefSubjects jlW [("ref_subjects", PyValue.str "Math,Physics")]
      = PyValue.list [PyValue.str "Math,Physics"] :=
  (c2_ref_subjects_decoding jlW [("ref_subjects", PyValue.str "Math,Physics")]
    rfl rfl).1 rfl

/-- Claim C3: a null gpa value normalizes both output gpa fields to the
sentinel "ref", a non-null gpa value to its string form, and the `passed`
flag is the negation of the record's `is_reference` flag. -/
theorem c3_gpa_normalization (jl : String → Option PyValue) (g : PyDict) (b : Bool) :
    (dget g "gpa" = Option.some PyValue.none →
      (normalizeGpaRecord jl g).gpa = "ref" ∧ (normalizeGpaRecord jl g).resultGpa = "ref")
    ∧ (∀ v, dget g "gpa" = Option.some v → isNone v = false →
      (normalizeGpaRecord jl g).gpa = pyStr v
        ∧ (normalizeGpaRecord jl g).resultGpa = pyStr v)
    ∧ (dget g "is_reference" = Option.some (PyValue.bool b) →
      (normalizeGpaRecord jl g).passed = !b) := by
  refine ⟨fun h => ?_, fun v hv hnv => ?_, fun h => ?_⟩
  · constructor <;> simp [normalizeGpaRecord, gpaDisplay, pyGet, pyGetD, h, isNone]
  · constructor <;> simp [normalizeGpaRecord, gpaDisplay, pyGet, pyGetD, hv, hnv]
  · simp [normalizeGpaRecord, pyGetD, h, pyTruthy]

/-- Claim C3 witness: a null gpa with `is_reference` true gives gpa "ref"
and passed false; gpa "3.50" with `is_reference` false gives passed true
and gpa "3.50". -/
theorem c3_witness :
    ((normalizeGpaRecord jlW [("gpa", PyValue.none), ("is_reference", PyValue.bool true)]).gpa
        = "ref"
      ∧ (normalizeGpaRecord jlW
          [("gpa", PyValue.none), ("is_reference", PyValue.bool true)]).passed = false)
    ∧ (normalizeGpaRecord jlW
        [("gpa", PyValue.str "3.50"), ("is_reference", PyValue.bool false)]).gpa = "3.50"
    ∧ (normalizeGpaRecord jlW
        [("gpa", PyValue.str "3.50"), ("is_reference", PyValue.bool false)]).passed = true := by
  have h1 := c3_gpa_normalization jlW
    [("gpa", PyValue.none), ("is_reference", PyValue.bool true)] true
  have h2 := c3_gpa_normalization jlW
    [("gpa", PyValue.str "3.50"), ("is_reference", PyValue.bool false)] false
  exact ⟨⟨(h1.1 rfl).1, h1.2.2 rfl⟩, (h2.2.1 (PyValue.str "3.50") rfl rfl).1, h2.2.2 rfl⟩

/-- Claim C10: a GPA record whose gpa key is absent is treated like one
whose gpa value is null — both output gpa fields become "ref" — and in
every other case the output is the string form of the actual stored value,
so the "0.00" default written in the code is never used. -/
theorem c10_absent_gpa_like_null (jl : String → Option PyValue) (g : PyDict) :
    (dget g "gpa" = Option.none →
      (normalizeGpaRecord jl g).gpa = "ref" ∧ (normalizeGpaRecord jl g).resultGpa = "ref")
    ∧ (dget g "gpa" = Option.some PyValue.none →
      (normalizeGpaRecord jl g).gpa = "ref" ∧ (normalizeGpaRecord jl g).resultGpa = "ref")
    ∧ (∀ v, dget g "gpa" = Option.some v → isNone v = false →
      (normalizeGpaRecord jl g).gpa = pyStr v
        ∧ (normalizeGpaRecord jl g).resultGpa = pyStr v) := by
  refine ⟨fun h => ?_, fun h => ?_, fun v hv hnv => ?_⟩
  · constructor <;> simp [normalizeGpaRecord, gpaDisplay, pyGet, pyGetD, h, isNone]
  · constructor <;> simp [normalizeGpaRecord, gpaDisplay, pyGet, pyGetD, h, isNone]
  · constructor <;> simp [normalizeGpaRecord, gpaDisplay, pyGet, pyGetD, hv, hnv]

/-- Claim C10 witness: a record without a gpa key and a record with a null
gpa value both normalize to "ref". -/
theorem c10_witness :
    (normalizeGpaRecord jlW []).gpa = "ref"
      ∧ (normalizeGpaRecord jlW [("gpa", PyValue.none)]).gpa = "ref" :=
  ⟨((c10_absent_gpa_like_null jlW []).1 rfl).1,
    ((c10_absent_gpa_like_null jlW [("gpa", PyValue.none)]).2.1 rfl).1⟩

/-- Claim C9 counterexample: a store-provenance success response whose one
GPA record carries a present-but-null `created_at` has a null `publishedAt`
in its `resultData`, so the output timestamp can be null. -/
theorem c9_counterexample :
    respResultPublishedAts (searchResult envNullTs (Option.some reqA) "primary").1
      = [PyValue.none] := rfl

/-- Claim C9 as amended: an absent `created_at` key is replaced by the fixed
sentinel timestamp in both GPA and CGPA normalization, while a present
value — including an explicit null — is passed through unchanged, so
`publishedAt` is never absent but can be null. -/
theorem c9_timestamp_defaulting (jl : String → Option PyValue) (g c : PyDict) (v : PyValue) :
    (dget g "created_at" = Option.none →
      (normalizeGpaRecord jl g).publishedAt = PyValue.str "2025-01-01T00:00:00Z")
    ∧ (dget g "created_at" = Option.some v → (normalizeGpaRecord jl g).publishedAt = v)
    ∧ (dget c "created_at" = Option.none →
      (normalizeCgpaRecord c).publishedAt = PyValue.str "2025-01-01T00:00:00Z")
    ∧ (dget c "created_at" = Option.some v → (normalizeCgpaRecord c).publishedAt = v) := by
  refine ⟨fun h => ?_, fun h => ?_, fun h => ?_, fun h => ?_⟩ <;>
    simp [normalizeGpaRecord, normalizeCgpaRecord, pyGetD, h]

/-- Claim C9 witness: the sentinel on an absent key, and a null passed
through on a present-but-null key. -/
theorem c9_witness :
    (normalizeGpaRecord jlW []).publishedAt = PyValue.str "2025-01-01T00:00:00Z"
      ∧ (normalizeCgpaRecord [("created_at", PyValue.none)]).publishedAt = PyValue.none := by
  have h := c9_timestamp_defaulting jlW [] [("created_at", PyValue.none)] PyValue.none
  exact ⟨h.1 rfl, h.2.2.2 rfl⟩

/-- Every event of the store search trace is a switch or a student query. -/
theorem searchAcrossGo_trace_shape (env : SearchEnv) :
    ∀ (order : List String) (cur : String), ∀ e ∈ (searchAcrossGo env order cur).2.2,
      (∃ p, e = Ev.switch p) ∨ ∃ p, e = Ev.qStudent p := by
  intro order
  induction order with
  | nil => intro cur e he; simp [searchAcrossGo] at he
  | cons p rest ih =>
    intro cur e he
    simp only [searchAcrossGo] at he
    cases hf : env.findStudent p with
    | ok o =>
      cases o with
      | none =>
        rw [hf] at he
        simp at he
        rcases he with rfl | rfl | he
        · exact Or.inl ⟨p, rfl⟩
        · exact Or.inr ⟨p, rfl⟩
        · exact ih p e he
      | some sd =>
        rw [hf] at he
        simp at he
        rcases he with rfl | rfl
        · exact Or.inl ⟨p, rfl⟩
        · exact Or.inr ⟨p, rfl⟩
    | error msg =>
      rw [hf] at he
      simp at he
      rcases he with rfl | rfl | he
      · exact Or.inl ⟨p, rfl⟩
      · exact Or.inr ⟨p, rfl⟩
      · exact ih p e he

/-- Every event of the CGPA scan trace is a switch or a CGPA query. -/
theorem qCgpaLoop_trace_shape (env : SearchEnv) :
    ∀ (order : List String) (cur : String), ∀ e ∈ (qCgpaLoop env order cur).2.2,
      (∃ p, e = Ev.switch p) ∨ ∃ p, e = Ev.qCgpa p := by
  intro order
  induction order with
  | nil => intro cur e he; simp [qCgpaLoop] at he
  | cons p rest ih =>
    intro cur e he
    simp only [qCgpaLoop] at he
    cases hf : env.fetchCgpa p with
    | error msg =>
      rw [hf] at he
      simp at he
      rcases he with rfl | rfl | he
      · exact Or.inl ⟨p, rfl⟩
      · exact Or.inr ⟨p, rfl⟩
      · exact ih p e he
    | ok ds =>
      rw [hf] at he
      by_cases hds : ds.isEmpty
      · simp [hds] at he
        rcases he with rfl | rfl | he
        · exact Or.inl ⟨p, rfl⟩
        · exact Or.inr ⟨p, rfl⟩
        · exact ih p e he
      · simp [hds] at he
        rcases he with rfl | rfl
        · exact Or.inl ⟨p, rfl⟩
        · exact Or.inr ⟨p, rfl⟩

/-- The store search trace contains no CGPA queries. -/
theorem cgpaQueries_searchTrace (env : SearchEnv) (order : List String) (cur : String) :
    cgpaQueries (searchAcrossGo env order cur).2.2 = [] := by
  refine List.filterMap_eq_nil_iff.mpr (fun e he => ?_)
  rcases searchAcrossGo_trace_shape env order cur e he with ⟨p, rfl⟩ | ⟨p, rfl⟩ <;> rfl

/-- The store search trace contains no GPA queries. -/
theorem gpaQueries_searchTrace (env : SearchEnv) (order : List String) (cur : String) :
    gpaQueries (searchAcrossGo env order cur).2.2 = [] := by
  refine List.filterMap_eq_nil_iff.mpr (fun e he => ?_)
  rcases searchAcrossGo_trace_shape env order cur e he with ⟨p, rfl⟩ | ⟨p, rfl⟩ <;> rfl

/-- The store search trace contains no fallback calls. -/
theorem fallbackCalls_searchTrace (env : SearchEnv) (order : List String) (cur : String) :
    fallbackCalls (searchAcrossGo env order cur).2.2 = [] := by
  refine List.filterMap_eq_nil_iff.mpr (fun e he => ?_)
  rcases searchAcrossGo_trace_shape env order cur e he with ⟨p, rfl⟩ | ⟨p, rfl⟩ <;> rfl

/-- The CGPA scan trace contains no student queries. -/
theorem studentQueries_cgpaTrace (env : SearchEnv) (order : List String) (cur : String) :
    studentQueries (qCgpaLoop env order cur).2.2 = [] := by
  refine List.filterMap_eq_nil_iff.mpr (fun e he => ?_)
  rcases qCgpaLoop_trace_shape env order cur e he with ⟨p, rfl⟩ | ⟨p, rfl⟩ <;> rfl

/-- The CGPA scan trace contains no GPA queries. -/
theorem gpaQueries_cgpaTrace (env : SearchEnv) (order : List String) (cur : String) :
    gpaQueries (qCgpaLoop env order cur).2.2 = [] := by
  refine List.filterMap_eq_nil_iff.mpr (fun e he => ?_)
  rcases qCgpaLoop_trace_shape env order cur e he with ⟨p, rfl⟩ | ⟨p, rfl⟩ <;> rfl

/-- The CGPA scan trace contains no fallback calls. -/
theorem fallbackCalls_cgpaTrace (env : SearchEnv) (order : List String) (cur : String) :
    fallbackCalls (qCgpaLoop env order cur).2.2 = [] := by
  refine List.filterMap_eq_nil_iff.mpr (fun e he => ?_)
  rcases qCgpaLoop_trace_shape env order cur e he with ⟨p, rfl⟩ | ⟨p, rfl⟩ <;> rfl

/-- The store search queries projects exactly in the claimed order: the
configured priority order up to and including the first hit. -/
theorem studentQueries_searchTrace (env : SearchEnv) :
    ∀ (order : List String) (cur : String),
      studentQueries (searchAcrossGo env order cur).2.2 = studentClaimOrder env order := by
  intro order
  induction order with
  | nil => intro cur; rfl
  | cons p rest ih =>
    intro cur
    simp only [searchAcrossGo, studentClaimOrder]
    cases hf : env.findStudent p with
    | ok o =>
      cases o with
      | none => simp [isHitB, studentQueries, evStudentProj, ← ih p]
      | some sd => simp [isHitB, studentQueries, evStudentProj]
    | error msg => simp [isHitB, studentQueries, evStudentProj, ← ih p]

/-- The CGPA scan queries projects exactly in the claimed order: the
configured order up to and including the first source with a non-empty
result, erroring sources skipped; the starting active project is
irrelevant. -/
theorem cgpaQueries_cgpaTrace (env : SearchEnv) :
    ∀ (order : List String) (cur : String),
      cgpaQueries (qCgpaLoop env order cur).2.2 = cgpaClaimOrder env order := by
  intro order
  induction order with
  | nil => intro cur; rfl
  | cons p rest ih =>
    intro cur
    simp only [qCgpaLoop, cgpaClaimOrder]
    cases hf : env.fetchCgpa p with
    | error msg => simp [cgpaQueries, evCgpaProj, ← ih p]
    | ok ds =>
      by_cases hds : ds.isEmpty
      · simp [hds, cgpaQueries, evCgpaProj, ← ih p]
      · simp [hds, cgpaQueries, evCgpaProj]

/-- The store search returns the first project in the configured order whose
student lookup hits. -/
theorem searchAcrossGo_firstHit (env : SearchEnv) :
    ∀ (order : List String) (cur : String),
      Option.map SearchHit.projectName (searchAcrossGo env order cur).1
        = order.find? (fun p => isHitB (env.findStudent p)) := by
  intro order
  induction order with
  | nil => intro cur; rfl
  | cons p rest ih =>
    intro cur
    simp only [searchAcrossGo, List.find?_cons]
    cases hf : env.findStudent p with
    | ok o =>
      cases o with
      | none => simp [isHitB]; simpa [isHitB] using ih p
      | some sd => simp [isHitB]
    | error msg => simp [isHitB]; simpa [isHitB] using ih p

/-- A hit produced by the store search carries provenance tag "supabase" and
no pre-fetched GPA rows, and its project is a member of the searched
order. -/
theorem searchAcrossGo_hit_fields (env : SearchEnv) :
    ∀ (order : List String) (cur : String) (h : SearchHit),
      (searchAcrossGo env order cur).1 = Option.some h →
      h.source = "supabase" ∧ h.gpaRecords = [] := by
  intro order
  induction order with
  | nil => intro cur h hh; simp [searchAcrossGo] at hh
  | cons p rest ih =>
    intro cur h hh
    simp only [searchAcrossGo] at hh
    cases hf : env.findStudent p with
    | ok o =>
      cases o with
      | none =>
        rw [hf] at hh
        simp at hh
        exact ih p h hh
      | some sd =>
        rw [hf] at hh
        simp at hh
        rw [← hh]
        exact ⟨rfl, rfl⟩
    | error msg =>
      rw [hf] at hh
      simp at hh
      exact ih p h hh

/-- A dict with a truthy value under some key is non-empty. -/
theorem truthy_key_nonempty (d : PyDict) (k : String)
    (h : pyTruthy (pyGet d k) = true) : d.isEmpty = false := by
  cases d with
  | nil => simp [pyGet, dget, pyTruthy] at h
  | cons kv rest => rfl

/-- Extractor distribution over trace concatenation. -/
theorem studentQueries_append (a b : List Ev) :
    studentQueries (a ++ b) = studentQueries a ++ studentQueries b :=
  List.filterMap_append a b evStudentProj

/-- Extractor distribution over trace concatenation. -/
theorem cgpaQueries_append (a b : List Ev) :
    cgpaQueries (a ++ b) = cgpaQueries a ++ cgpaQueries b :=
  List.filterMap_append a b evCgpaProj

/-- Extractor distribution over trace concatenation. -/
theorem gpaQueries_append (a b : List Ev) :
    gpaQueries (a ++ b) = gpaQueries a ++ gpaQueries b :=
  List.filterMap_append a b evGpaProj

/-- Extractor distribution over trace concatenation. -/
theorem fallbackCalls_append (a b : List Ev) :
    fallbackCalls (a ++ b) = fallbackCalls a ++ fallbackCalls b :=
  List.filterMap_append a b evFallbackProj

/-- Unfolding of the handler on the found path. -/
theorem searchResult_found (env : SearchEnv) (d : PyDict) (cur : String) (h : SearchHit)
    (h1 : pyTruthy (pyGet d "rollNo") = true)
    (h2 : pyTruthy (pyGet d "regulation") = true)
    (h3 : pyTruthy (pyGet d "program") = true)
    (hsr : (searchAcrossGo env env.searchOrder cur).1 = Option.some h) :
    searchResult env (Option.some d) cur =
      ((foundBranch env h (searchAcrossGo env env.searchOrder cur).2.1).1,
       (foundBranch env h (searchAcrossGo env env.searchOrder cur).2.1).2.1,
       (searchAcrossGo env env.searchOrder cur).2.2
         ++ (foundBranch env h (searchAcrossGo env env.searchOrder cur).2.1).2.2) := by
  have hne : d.isEmpty = false := truthy_key_nonempty d "rollNo" h1
  simp [searchResult, hne, h1, h2, h3, hsr]

/-- Unfolding of the handler on the total-miss path. -/
theorem searchResult_missed (env : SearchEnv) (d : PyDict) (cur : String)
    (h1 : pyTruthy (pyGet d "rollNo") = true)
    (h2 : pyTruthy (pyGet d "regulation") = true)
    (h3 : pyTruthy (pyGet d "program") = true)
    (hsr : (searchAcrossGo env env.searchOrder cur).1 = Option.none) :
    searchResult env (Option.some d) cur =
      ((missBranch env (pyGet d "rollNo") (pyGet d "regulation") (pyGet d "program")
          (searchAcrossGo env env.searchOrder cur).2.1).1,
       (missBranch env (pyGet d "rollNo") (pyGet d "regulation") (pyGet d "program")
          (searchAcrossGo env env.searchOrder cur).2.1).2.1,
       (searchAcrossGo env env.searchOrder cur).2.2
         ++ (missBranch env (pyGet d "rollNo") (pyGet d "regulation") (pyGet d "program")
              (searchAcrossGo env env.searchOrder cur).2.1).2.2) := by
  have hne : d.isEmpty = false := truthy_key_nonempty d "rollNo" h1
  simp [searchResult, hne, h1, h2, h3, hsr]

/-- The found branch's trace for a store-provenance hit: the CGPA scan, the
switch back to the found project, then the switch and GPA query there. -/
theorem foundBranch_trace (env : SearchEnv) (h : SearchHit) (cur : String)
    (hsrc : h.source = "supabase") :
    (foundBranch env h cur).2.2 =
      ((qCgpaLoop env env.searchOrder cur).2.2 ++ [Ev.switch h.projectName])
        ++ [Ev.switch h.projectName, Ev.qGpa h.projectName] := by
  have hsb : (h.source == "supabase") = true := by rw [hsrc]; rfl
  have hsw : strStartsWith h.source "web_api" = false := by rw [hsrc]; rfl
  cases hg : env.fetchGpa h.projectName <;> simp [foundBranch, hsb, hsw, hg]

/-- The found branch leaves the active project on the found project. -/
theorem foundBranch_state (env : SearchEnv) (h : SearchHit) (cur : String)
    (hsrc : h.source = "supabase") :
    (foundBranch env h cur).2.1 = h.projectName := by
  have hsb : (h.source == "supabase") = true := by rw [hsrc]; rfl
  have hsw : strStartsWith h.source "web_api" = false := by rw [hsrc]; rfl
  cases hg : env.fetchGpa h.projectName <;> simp [foundBranch, hsb, hsw, hg]

/-- When the GPA fetch at the found project errors, the found branch still
produces a success document, with an empty `resultData`. -/
theorem foundBranch_gpaErr (env : SearchEnv) (h : SearchHit) (cur : String) (e : String)
    (hsrc : h.source = "supabase") (hg : env.fetchGpa h.projectName = Except.error e) :
    (foundBranch env h cur).1 = Resp.success
      { roll := pyGet h.studentData "roll_number",
        regulation := pyGet h.studentData "regulation_year",
        exam := pyGet h.studentData "program_name",
        instCode := pyGet h.instituteData "institute_code",
        instName := pyGet h.instituteData "name",
        instDistrict := pyGet h.instituteData "district",
        resultData := [],
        cgpaData := (qCgpaLoop env env.searchOrder cur).1 } := by
  have hsb : (h.source == "supabase") = true := by rw [hsrc]; rfl
  have hsw : strStartsWith h.source "web_api" = false := by rw [hsrc]; rfl
  simp [foundBranch, hsb, hsw, hg]

/-- The found branch always answers with a success document. -/
theorem foundBranch_success (env : SearchEnv) (h : SearchHit) (cur : String) :
    ∃ doc, (foundBranch env h cur).1 = Resp.success doc :=
  ⟨_, rfl⟩

/-- The miss branch performs exactly one fallback call, with the given
arguments. -/
theorem missBranch_trace (env : SearchEnv) (r g p : PyValue) (cur : String) :
    (missBranch env r g p cur).2.2 = [Ev.qFallback r g p] := by
  cases hf : env.fallback r g p with
  | error e => simp [missBranch, hf]
  | ok o =>
    cases o with
    | none => simp [missBranch, hf]
    | some w =>
      by_cases hw : pyTruthy (pyGet w "success") <;> simp [missBranch, hf, hw]

/-- When the fallback returns unsuccessfully, the miss branch answers with
the structured miss document listing the configured search order. -/
theorem missBranch_fail (env : SearchEnv) (r g p : PyValue) (cur : String)
    (hf : fallbackFailsB (env.fallback r g p) = true) :
    (missBranch env r g p cur).1 =
      Resp.miss r g p env.searchOrder ["btebresulthub"] := by
  cases hfb : env.fallback r g p with
  | error e => rw [hfb] at hf; simp [fallbackFailsB] at hf
  | ok o =>
    cases o with
    | none => simp [missBranch, hfb]
    | some w =>
      rw [hfb] at hf
      simp [fallbackFailsB] at hf
      simp [missBranch, hfb, hf]

/-- The miss branch answers with a bare 500 error document exactly when the
fallback call raised, and the document carries the exception message. -/
theorem missBranch_error_inv (env : SearchEnv) (r g p : PyValue) (cur : String)
    (m : String) (s : Nat) :
    (missBranch env r g p cur).1 = Resp.errorDoc m s →
      env.fallback r g p = Except.error m ∧ s = 500 := by
  intro hh
  cases hfb : env.fallback r g p with
  | error e =>
    simp [missBranch, hfb] at hh
    exact ⟨by rw [hh.1], hh.2.symm⟩
  | ok o =>
    cases o with
    | none => simp [missBranch, hfb] at hh
    | some w =>
      by_cases hw : pyTruthy (pyGet w "success") <;> simp [missBranch, hfb, hw] at hh

/-- Pointwise evaluation of the student-query extractor. -/
theorem studentQueries_cons (e : Ev) (l : List Ev) :
    studentQueries (e :: l) =
      (match e with | Ev.qStudent p => [p] | _ => []) ++ studentQueries l := by
  cases e <;> rfl

/-- Pointwise evaluation of the CGPA-query extractor. -/
theorem cgpaQueries_cons (e : Ev) (l : List Ev) :
    cgpaQueries (e :: l) =
      (match e with | Ev.qCgpa p => [p] | _ => []) ++ cgpaQueries l := by
  cases e <;> rfl

/-- Pointwise evaluation of the GPA-query extractor. -/
theorem gpaQueries_cons (e : Ev) (l : List Ev) :
    gpaQueries (e :: l) =
      (match e with | Ev.qGpa p => [p] | _ => []) ++ gpaQueries l := by
  cases e <;> rfl

/-- Pointwise evaluation of the fallback-call extractor. -/
theorem fallbackCalls_cons (e : Ev) (l : List Ev) :
    fallbackCalls (e :: l) =
      (match e with | Ev.qFallback r g p => [(r, g, p)] | _ => []) ++ fallbackCalls l := by
  cases e <;> rfl

/-- The student-query extractor on the empty trace. -/
theorem studentQueries_nil : studentQueries [] = [] := rfl

/-- The CGPA-query extractor on the empty trace. -/
theorem cgpaQueries_nil : cgpaQueries [] = [] := rfl

/-- The GPA-query extractor on the empty trace. -/
theorem gpaQueries_nil : gpaQueries [] = [] := rfl

/-- The fallback-call extractor on the empty trace. -/
theorem fallbackCalls_nil : fallbackCalls [] = [] := rfl

/-- The hit of the concrete single/first-project scenarios. -/
def hitA : SearchHit :=
  { studentData := sdA, instituteData := instA, source := "supabase",
    projectName := "primary", gpaRecords := [] }

/-- Claim C1 (code-bug evidence): with the registry's active pointer on
"primary" at entry and the student record present only in "secondary", the
handler leaves the active pointer on "secondary" after the call — the
pre-call value is not restored, contrary to the restore invariant (and to
the handler's own "Restore original project" comment, which switches to the
found project instead of the original one). -/
theorem c1_pointer_left_on_found_project :
    (searchResult envB (Option.some reqA) "primary").2.1 = "secondary"
      ∧ ("secondary" : String) ≠ "primary" :=
  ⟨rfl, by decide⟩

/-- Claim C8: the handler queries sources for the student record strictly in
the configured priority order, stopping at (and never passing) the first
source with a match, and the hit is exactly the first matching source. -/
theorem c8_priority_order (env : SearchEnv) (d : PyDict) (cur : String)
    (h1 : pyTruthy (pyGet d "rollNo") = true)
    (h2 : pyTruthy (pyGet d "regulation") = true)
    (h3 : pyTruthy (pyGet d "program") = true) :
    studentQueries (searchResult env (Option.some d) cur).2.2
        = studentClaimOrder env env.searchOrder
      ∧ Option.map SearchHit.projectName (searchAcrossGo env env.searchOrder cur).1
        = env.searchOrder.find? (fun p => isHitB (env.findStudent p)) := by
  refine ⟨?_, searchAcrossGo_firstHit env env.searchOrder cur⟩
  cases hsr : (searchAcrossGo env env.searchOrder cur).1 with
  | some h =>
    have hfields := searchAcrossGo_hit_fields env env.searchOrder cur h hsr
    rw [searchResult_found env d cur h h1 h2 h3 hsr]
    simp [studentQueries_append, foundBranch_trace env h _ hfields.1,
      studentQueries_searchTrace, studentQueries_cgpaTrace, studentQueries_cons,
      studentQueries_nil]
  | none =>
    rw [searchResult_missed env d cur h1 h2 h3 hsr]
    simp [studentQueries_append, studentQueries_searchTrace, missBranch_trace,
      studentQueries_cons, studentQueries_nil]

/-- Claim C8 witness: with a miss in "primary" and a hit in "secondary", the
student record is queried in exactly that order. -/
theorem c8_witness :
    studentQueries (searchResult envB (Option.some reqA) "primary").2.2
      = ["primary", "secondary"] := by
  have h := c8_priority_order envB reqA "primary" rfl rfl rfl
  exact h.1.trans rfl

/-- Claim C5: after a store hit the CGPA scan queries the sources in the
configured order — independently of which source held the student record
(the right-hand side of the first equation does not mention the hit) —
stopping at the first source with a non-empty CGPA result; a per-source
error skips that source and continues, and a stop returns the transformed
rows of the stopping source. -/
theorem c5_cgpa_scan (env : SearchEnv) (d : PyDict) (cur : String) (h : SearchHit)
    (h1 : pyTruthy (pyGet d "rollNo") = true)
    (h2 : pyTruthy (pyGet d "regulation") = true)
    (h3 : pyTruthy (pyGet d "program") = true)
    (hsr : (searchAcrossGo env env.searchOrder cur).1 = Option.some h) :
    cgpaQueries (searchResult env (Option.some d) cur).2.2
        = cgpaClaimOrder env env.searchOrder
      ∧ (∀ p rest c e, env.fetchCgpa p = Except.error e →
          (qCgpaLoop env (p :: rest) c).1 = (qCgpaLoop env rest p).1)
      ∧ (∀ p rest c ds, env.fetchCgpa p = Except.ok ds → ds.isEmpty = false →
          (qCgpaLoop env (p :: rest) c).1 = ds.map normalizeCgpaRecord) := by
  refine ⟨?_, fun p rest c e he => by simp [qCgpaLoop, he],
    fun p rest c ds hds hne => by simp [qCgpaLoop, hds, hne]⟩
  have hfields := searchAcrossGo_hit_fields env env.searchOrder cur h hsr
  rw [searchResult_found env d cur h h1 h2 h3 hsr]
  simp [cgpaQueries_append, foundBranch_trace env h _ hfields.1,
    cgpaQueries_searchTrace, cgpaQueries_cgpaTrace, cgpaQueries_cons, cgpaQueries_nil]

/-- Claim C5 witness: hit in "primary", CGPA query erroring there and
non-empty in "secondary": the scan queries "primary" then "secondary" and
never reaches "tertiary". -/
theorem c5_witness :
    cgpaQueries (searchResult envCgpaScan (Option.some reqA) "primary").2.2
      = ["primary", "secondary"] := by
  have h := c5_cgpa_scan envCgpaScan reqA "primary" hitA rfl rfl rfl rfl
  exact h.1.trans rfl

/-- Claim C6: after a store hit, GPA records are queried exactly once, only
at the project where the student record was found; and when that fetch
raises, the request still succeeds, with an empty `resultData`. -/
theorem c6_gpa_from_found_source (env : SearchEnv) (d : PyDict) (cur : String)
    (h : SearchHit)
    (h1 : pyTruthy (pyGet d "rollNo") = true)
    (h2 : pyTruthy (pyGet d "regulation") = true)
    (h3 : pyTruthy (pyGet d "program") = true)
    (hsr : (searchAcrossGo env env.searchOrder cur).1 = Option.some h) :
    gpaQueries (searchResult env (Option.some d) cur).2.2 = [h.projectName]
      ∧ ∀ e, env.fetchGpa h.projectName = Except.error e →
          ∃ doc, (searchResult env (Option.some d) cur).1 = Resp.success doc
            ∧ doc.resultData = [] := by
  have hfields := searchAcrossGo_hit_fields env env.searchOrder cur h hsr
  constructor
  · rw [searchResult_found env d cur h h1 h2 h3 hsr]
    simp [gpaQueries_append, foundBranch_trace env h _ hfields.1,
      gpaQueries_searchTrace, gpaQueries_cgpaTrace, gpaQueries_cons, gpaQueries_nil]
  · intro e he
    rw [searchResult_found env d cur h h1 h2 h3 hsr]
    exact ⟨_, foundBranch_gpaErr env h _ e hfields.1 he, rfl⟩

/-- Claim C6 witness: a hit in "primary" with an erroring GPA fetch — only
"primary" is queried for GPA records and the request still succeeds with an
empty result list. -/
theorem c6_witness :
    gpaQueries (searchResult envGpaErr (Option.some reqA) "primary").2.2 = ["primary"]
      ∧ ∃ doc, (searchResult envGpaErr (Option.some reqA) "primary").1 = Resp.success doc
          ∧ doc.resultData = [] := by
  have h := c6_gpa_from_found_source envGpaErr reqA "primary" hitA rfl rfl rfl rfl
  exact ⟨h.1, h.2 "connection reset" rfl⟩

/-- Claim C4: when every configured source misses the student record, the
fallback is invoked exactly once, with the three original request fields;
and when the fallback also fails, the response is the structured miss
document listing every configured source name. -/
theorem c4_fallback_once (env : SearchEnv) (d : PyDict) (cur : String)
    (h1 : pyTruthy (pyGet d "rollNo") = true)
    (h2 : pyTruthy (pyGet d "regulation") = true)
    (h3 : pyTruthy (pyGet d "program") = true)
    (hmiss : ∀ p ∈ env.searchOrder, isHitB (env.findStudent p) = false) :
    fallbackCalls (searchResult env (Option.some d) cur).2.2
        = [(pyGet d "rollNo", pyGet d "regulation", pyGet d "program")]
      ∧ (fallbackFailsB (env.fallback (pyGet d "rollNo") (pyGet d "regulation")
            (pyGet d "program")) = true →
          (searchResult env (Option.some d) cur).1 =
            Resp.miss (pyGet d "rollNo") (pyGet d "regulation") (pyGet d "program")
              env.searchOrder ["btebresulthub"]) := by
  have hsr : (searchAcrossGo env env.searchOrder cur).1 = Option.none := by
    have hfind : env.searchOrder.find? (fun p => isHitB (env.findStudent p))
        = Option.none :=
      List.find?_eq_none.mpr (fun p hp => by simp [hmiss p hp])
    have hmap := searchAcrossGo_firstHit env env.searchOrder cur
    rw [hfind] at hmap
    simpa using hmap
  constructor
  · rw [searchResult_missed env d cur h1 h2 h3 hsr]
    simp [fallbackCalls_append, fallbackCalls_searchTrace, missBranch_trace,
      fallbackCalls_cons, fallbackCalls_nil]
  · intro hf
    rw [searchResult_missed env d cur h1 h2 h3 hsr]
    exact missBranch_fail env _ _ _ _ hf

/-- Claim C4 witness: both sources miss and the fallback returns a falsy
result — one fallback call with the original fields, and the miss document
lists both configured sources. -/
theorem c4_witness :
    fallbackCalls (searchResult envAllMiss (Option.some reqA) "primary").2.2
        = [(PyValue.str "123456", PyValue.str "2016", PyValue.str "Diploma")]
      ∧ (searchResult envAllMiss (Option.some reqA) "primary").1 =
          Resp.miss (PyValue.str "123456") (PyValue.str "2016") (PyValue.str "Diploma")
            ["primary", "secondary"] ["btebresulthub"] := by
  have h := c4_fallback_once envAllMiss reqA "primary" rfl rfl rfl (by decide)
  exact ⟨h.1, h.2 rfl⟩

/-- Claim C7 counterexample: with every source missing and the fallback
raising a transport error, the handler's response is the bare 500 error
document — not one of the structured shapes of spec §6 — so not every
failure surfaces in a §6 shape. -/
theorem c7_counterexample :
    sec6Shape (searchResult envFallbackRaise (Option.some reqA) "primary").1 = false := rfl

/-- Claim C7 as amended: no internal exception reaches the caller unwrapped
— every response is either one of the structured §6 shapes or a bare error
document with status 400 or 500; and a 500 error document arises exactly
from a raised fallback exception, whose message it carries. -/
theorem c7_failures_wrapped (env : SearchEnv) (data : Option PyDict) (cur : String) :
    (sec6Shape (searchResult env data cur).1 = true
      ∨ ∃ m s, (searchResult env data cur).1 = Resp.errorDoc m s ∧ (s = 400 ∨ s = 500))
    ∧ ∀ d m, data = Option.some d →
        (searchResult env data cur).1 = Resp.errorDoc m 500 →
        env.fallback (pyGet d "rollNo") (pyGet d "regulation") (pyGet d "program")
          = Except.error m := by
  constructor
  · cases data with
    | none => exact Or.inr ⟨"No JSON data provided", 400, rfl, Or.inl rfl⟩
    | some d =>
      by_cases hde : d.isEmpty = true
      · exact Or.inr ⟨"No JSON data provided", 400, by simp [searchResult, hde], Or.inl rfl⟩
      · have hde2 : d.isEmpty = false := by simpa using hde
        by_cases hall : (pyTruthy (pyGet d "rollNo") && pyTruthy (pyGet d "regulation")
            && pyTruthy (pyGet d "program")) = true
        · cases hsr : (searchAcrossGo env env.searchOrder cur).1 with
          | some h =>
            left
            have heq : (searchResult env (Option.some d) cur).1
                = (foundBranch env h (searchAcrossGo env env.searchOrder cur).2.1).1 := by
              simp [searchResult, hde2, hall, hsr]
            rw [heq]
            obtain ⟨doc, hdoc⟩ :=
              foundBranch_success env h (searchAcrossGo env env.searchOrder cur).2.1
            rw [hdoc]
            rfl
          | none =>
            have heq : (searchResult env (Option.some d) cur).1
                = (missBranch env (pyGet d "rollNo") (pyGet d "regulation")
                    (pyGet d "program") (searchAcrossGo env env.searchOrder cur).2.1).1 := by
              simp [searchResult, hde2, hall, hsr]
            rw [heq]
            cases hfb : env.fallback (pyGet d "rollNo") (pyGet d "regulation")
                (pyGet d "program") with
            | error e => exact Or.inr ⟨e, 500, by simp [missBranch, hfb], Or.inr rfl⟩
            | ok o =>
              cases o with
              | none => left; simp [missBranch, hfb, sec6Shape]
              | some w =>
                left
                by_cases hw : pyTruthy (pyGet w "success") = true <;>
                  simp [missBranch, hfb, hw, sec6Shape]
        · have hall2 : (pyTruthy (pyGet d "rollNo") && pyTruthy (pyGet d "regulation")
              && pyTruthy (pyGet d "program")) = false := by simpa using hall
          exact Or.inr ⟨"Missing required fields: rollNo, regulation, program", 400,
            by simp [searchResult, hde2, hall2], Or.inl rfl⟩
  · intro d m hdata hresp
    subst hdata
    by_cases hde : d.isEmpty = true
    · simp [searchResult, hde] at hresp
    · have hde2 : d.isEmpty = false := by simpa using hde
      by_cases hall : (pyTruthy (pyGet d "rollNo") && pyTruthy (pyGet d "regulation")
          && pyTruthy (pyGet d "program")) = true
      · cases hsr : (searchAcrossGo env env.searchOrder cur).1 with
        | some h =>
          have heq : (searchResult env (Option.some d) cur).1
              = (foundBranch env h (searchAcrossGo env env.searchOrder cur).2.1).1 := by
            simp [searchResult, hde2, hall, hsr]
          rw [heq] at hresp
          obtain ⟨doc, hdoc⟩ :=
            foundBranch_success env h (searchAcrossGo env env.searchOrder cur).2.1
          rw [hdoc] at hresp
          exact absurd hresp (by simp)
        | none =>
          have heq : (searchResult env (Option.some d) cur).1
              = (missBranch env (pyGet d "rollNo") (pyGet d "regulation")
                  (pyGet d "program") (searchAcrossGo env env.searchOrder cur).2.1).1 := by
            simp [searchResult, hde2, hall, hsr]
          rw [heq] at hresp
          exact (missBranch_error_inv env _ _ _ _ m 500 hresp).1
      · have hall2 : (pyTruthy (pyGet d "rollNo") && pyTruthy (pyGet d "regulation")
            && pyTruthy (pyGet d "program")) = false := by simpa using hall
        simp [searchResult, hde2, hall2] at hresp

/-- Claim C7 witness: concrete run in which the 500 error document is traced
back to the raised fallback exception it wraps. -/
theorem c7_witness :
    envFallbackRaise.fallback (PyValue.str "123456") (PyValue.str "2016")
        (PyValue.str "Diploma") = Except.error "connection timeout" := by
  have h := c7_failures_wrapped envFallbackRaise (Option.some reqA) "primary"
  exact h.2 reqA "connection timeout" rfl rfl
